import Mathlib

/-!
Shallow embedding of the remote-connectivity control loop of
`src/vpn_service.py` (classes `Cloud`, `Gateway`, `DataCollector`,
`VpnController` and the `main` loop), together with theorems settling the
specification claims about it.

Modelling conventions:
* Timestamps (`time.time()`), periods and sleep durations are `Int` seconds.
  Each tick observes a single instant `now`.
* Python exceptions in external collaborators are modelled as explicit
  outcome values (`FetchResult`, `OpOutcome`, the `setFails` oracle for
  `ConfigurationController.set_setting`); the code's own `try/except`
  control flow is translated branch by branch.
* LED calls (`set_led`, `toggle_led`) and log prints are external
  side effects with no bearing on any claim; they are not tracked.
* OS-level calls (`systemctl`, reboot) are tracked as counts/flags in the
  result records rather than performed.
-/

namespace VpnService

/-- JSON-ish values handled by the service (settings values, the value
returned by `ConfigurationController.get_setting`, collector payload data). -/
inductive Value where
  | vBool : Bool → Value
  | vInt : Int → Value
  | vStr : String → Value
  | vNone : Value
deriving DecidableEq, Repr

/-- Parsed JSON body of the cloud response in `Cloud.should_open_vpn`.
`none` in a field models the key being absent from the parsed dict;
`configuration` is the dict of settings in iteration order. -/
structure RespData where
  sleep_time : Option Int
  configuration : Option (List (String × Value))
  open_vpn : Option Bool
deriving DecidableEq, Repr

/-- Outcome of `requests.post` followed by `json.loads` in
`Cloud.should_open_vpn`: a raised network/timeout error, a parse error, or a
successfully parsed body. -/
inductive FetchResult where
  | netError : FetchResult
  | badJson : FetchResult
  | ok : RespData → FetchResult
deriving DecidableEq, Repr

/-- Mutable state of the `Cloud` object: `self.__sleep_time` (initialised to
`DEFAULT_SLEEP_TIME`) and `self.__last_connect` (initialised to startup time). -/
structure CloudSession where
  sleep_time : Int
  last_connect : Int
deriving DecidableEq, Repr

/-- `Cloud.DEFAULT_SLEEP_TIME = 30`. -/
def DEFAULT_SLEEP_TIME : Int := 30

/-- Module constant `REBOOT_TIMEOUT = 900`. -/
def REBOOT_TIMEOUT : Int := 900

/-- The `for setting, value in data['configuration'].iteritems():
self.__config.set_setting(setting, value)` loop. `setFails k v = true` means
that `set_setting(k, v)` raises. Returns the entries successfully applied
and whether the loop raised (aborting the remaining entries). -/
def applySettings (setFails : String → Value → Bool) :
    List (String × Value) → List (String × Value) × Bool
  | [] => ([], false)
  | (k, v) :: rest =>
    if setFails k v then ([], true)
    else
      let r := applySettings setFails rest
      ((k, v) :: r.1, r.2)

/-- Result of one `Cloud.should_open_vpn` call: the session after the call,
the configuration entries successfully applied via `set_setting`, and the
returned boolean. -/
structure CloudCallResult where
  session : CloudSession
  applied : List (String × Value)
  decision : Bool
deriving DecidableEq, Repr

/-- `Cloud.should_open_vpn`, translated branch by branch.  Inside the `try`:
the POST and `json.loads` (modelled by `fetch`); then `sleep_time` is set
from the body or defaulted; then the configuration loop (which may raise);
then `self.__last_connect = time.time()`; finally `return data['open_vpn']`,
whose `KeyError` when the field is absent is raised only after
`last_connect` was already updated.  The `except` clause returns `True`. -/
def should_open_vpn (setFails : String → Value → Bool) (now : Int)
    (fetch : FetchResult) (s : CloudSession) : CloudCallResult :=
  match fetch with
  | FetchResult.netError => ⟨s, [], true⟩
  | FetchResult.badJson => ⟨s, [], true⟩
  | FetchResult.ok data =>
    let s1 : CloudSession :=
      match data.sleep_time with
      | some t => { s with sleep_time := t }
      | none => { s with sleep_time := DEFAULT_SLEEP_TIME }
    let cfg :=
      match data.configuration with
      | some entries => applySettings setFails entries
      | none => ([], false)
    if cfg.2 then
      ⟨s1, cfg.1, true⟩
    else
      let s2 : CloudSession := { s1 with last_connect := now }
      match data.open_vpn with
      | some b => ⟨s2, cfg.1, b⟩
      | none => ⟨s2, cfg.1, true⟩

/-- `Cloud.get_sleep_time`. -/
def get_sleep_time (s : CloudSession) : Int := s.sleep_time

/-- `Cloud.get_last_connect`. -/
def get_last_connect (s : CloudSession) : Int := s.last_connect

/-- `Gateway.__counter_diff`: forward difference of a wrapping 16-bit
counter, exactly as written in the source. -/
def counter_diff (current previous : Int) : Int :=
  let diff := current - previous
  if diff ≥ 0 then diff else 65536 - previous + current

/-- The success branch of `Gateway.get_pulse_counter_diff` after a working
`do_call`: state is `self.__last_pulse_counters` (initially `None`), input is
the fresh `data['counters']` list.  Returns the new state and the produced
list of deltas.  The source indexes `counters[i]` and the previous list for
`i` in `0..23` (it assumes 24 entries); out-of-range indexing is modelled
with a default of 0 via `getD`. -/
def get_pulse_counter_diff (last_pulse_counters : Option (List Int))
    (counters : List Int) : Option (List Int) × List Int :=
  match last_pulse_counters with
  | none => (some counters, List.replicate 24 0)
  | some prev =>
      (some counters,
       (List.range 24).map (fun i => counter_diff (counters.getD i 0) (prev.getD i 0)))

/-- Mutable state of a `DataCollector`: `self.__period` and
`self.__last_collect` (initialised to 0). The wrapped zero-argument
`self.__function` is external; its behaviour on a given call is supplied as
an `OpOutcome`. -/
structure DataCollector where
  period : Int
  last_collect : Int
deriving DecidableEq, Repr

/-- Behaviour of the wrapped collector function on one invocation: returns a
value, returns Python `None` (as the gateway getters do on error), or raises. -/
inductive OpOutcome where
  | ok : Value → OpOutcome
  | returnsNone : OpOutcome
  | raises : OpOutcome
deriving DecidableEq, Repr

/-- `DataCollector.__should_collect`:
`self.__period == 0 or time.time() >= self.__last_collect + self.__period`. -/
def DataCollector.should_collect (c : DataCollector) (now : Int) : Bool :=
  c.period == 0 || now ≥ c.last_collect + c.period

/-- `DataCollector.collect`: if due, the source first runs
`self.__last_collect = time.time()` (when `period != 0`) and only then calls
`self.__function()`; a raised exception is caught and turned into `None`,
but the `last_collect` mutation has already happened.  Returns the collector
state after the call and the returned value (`none` models Python `None`). -/
def DataCollector.collect (c : DataCollector) (now : Int) (outcome : OpOutcome) :
    DataCollector × Option Value :=
  if c.should_collect now then
    let c' := if c.period ≠ 0 then { c with last_collect := now } else c
    match outcome with
    | OpOutcome.ok v => (c', some v)
    | OpOutcome.returnsNone => (c', none)
    | OpOutcome.raises => (c', none)
  else
    (c, none)

/-- Calls to the `VpnController` OS primitives made by one `set_vpn` call. -/
structure VpnCalls where
  start_calls : Nat
  stop_calls : Nat
deriving DecidableEq, Repr

/-- The nested `set_vpn` function of `main`: queries `check_vpn` (the result
is passed in as `is_open`), starts the vpn when it should be open but is
not, stops it when it should be closed but is open, otherwise does nothing. -/
def set_vpn (should_open : Bool) (is_open : Bool) : VpnCalls :=
  if should_open && !is_open then ⟨1, 0⟩
  else if !should_open && is_open then ⟨0, 1⟩
  else ⟨0, 0⟩

/-- The collector loop of `main`: run `collect()` on each collector in turn
(each with its externally supplied outcome; a missing outcome is treated as a
raise) and keep the non-`None` results as the `vpn_data` payload. -/
def runCollectors (now : Int) :
    List DataCollector → List OpOutcome → List DataCollector × List Value
  | [], _ => ([], [])
  | c :: cs, outs =>
    let o := match outs with | [] => OpOutcome.raises | o :: _ => o
    let os : List OpOutcome := match outs with | [] => [] | _ :: rest => rest
    let r := c.collect now o
    let rest := runCollectors now cs os
    (r.1 :: rest.1,
     match r.2 with
     | some v => v :: rest.2
     | none => rest.2)

/-- State of the `main` loop surviving across ticks: the iteration counter,
the `Cloud` session and the collector states. -/
structure LoopState where
  iterations : Nat
  session : CloudSession
  collectors : List DataCollector
deriving DecidableEq, Repr

/-- External inputs observed during one tick: the value the configuration
store returns for `cloud_enabled`, the tick instant, the `check_vpn` result,
the collector function outcomes, the cloud call outcome and the
`set_setting` failure oracle. -/
structure TickEnv where
  cloud_enabled : Value
  now : Int
  vpn_is_open : Bool
  outcomes : List OpOutcome
  fetch : FetchResult
  setFails : String → Value → Bool

/-- Observable effects of one tick of the `main` loop. -/
structure TickEffects where
  cloud_called : Bool
  collect_ran : Bool
  payload : List Value
  rebooted : Bool
  vpn_calls : VpnCalls
  sleep : Int
deriving DecidableEq, Repr

/-- One iteration of the `while True` loop of `main`.  The source order:
read `cloud_enabled` and, if it `is False`, run `set_vpn(False)`, sleep 30
and `continue`; otherwise collect the payload, call
`cloud.should_open_vpn`, check the watchdog condition
`iterations > 20 and cloud.get_last_connect() < time.time() - REBOOT_TIMEOUT`
(calling `reboot_gateway` when it holds), increment `iterations`, run
`set_vpn(should_open)` and sleep `cloud.get_sleep_time()` seconds. -/
def tick (s : LoopState) (env : TickEnv) : LoopState × TickEffects :=
  if env.cloud_enabled = Value.vBool false then
    (s, { cloud_called := false, collect_ran := false, payload := [],
          rebooted := false, vpn_calls := set_vpn false env.vpn_is_open,
          sleep := 30 })
  else
    let collected := runCollectors env.now s.collectors env.outcomes
    let call := should_open_vpn env.setFails env.now env.fetch s.session
    let rebooted :=
      decide (s.iterations > 20) &&
      decide (get_last_connect call.session < env.now - REBOOT_TIMEOUT)
    ({ iterations := s.iterations + 1, session := call.session,
       collectors := collected.1 },
     { cloud_called := true, collect_ran := true, payload := collected.2,
       rebooted := rebooted,
       vpn_calls := set_vpn call.decision env.vpn_is_open,
       sleep := get_sleep_time call.session })

/-- Shared concrete oracle: `set_setting` never raises. -/
def noFail : String → Value → Bool := fun _ _ => false

/-- Shared concrete oracle: `set_setting` raises exactly on the key "a". -/
def failOnA : String → Value → Bool := fun k _ => k == "a"

/-- Helper: `applySettings` applies exactly the longest prefix of entries on
which `set_setting` succeeds, and raises exactly when some entry fails. -/
theorem applySettings_eq (f : String → Value → Bool)
    (l : List (String × Value)) :
    applySettings f l
      = (List.takeWhile (fun p => !f p.1 p.2) l,
         List.any l (fun p => f p.1 p.2)) := by
  induction l with
  | nil => rfl
  | cons p rest ih =>
    obtain ⟨k, v⟩ := p
    cases h : f k v <;> simp [applySettings, h, ih]

/-- C1 (counterexample): a response that parses but lacks `open_vpn` is a
failing call (the call returns the fail-safe `true`), yet `last_connect`
changes from 0 to 100 because the source updates it before reading
`data['open_vpn']`. -/
theorem claim_C1_counterexample :
    (should_open_vpn noFail 100 (FetchResult.ok ⟨none, none, none⟩) ⟨30, 0⟩).decision = true
  ∧ get_last_connect
      (should_open_vpn noFail 100 (FetchResult.ok ⟨none, none, none⟩) ⟨30, 0⟩).session = 100
  ∧ (100 : Int) ≠ 0 := by decide

/-- C1 (amended): a network error, timeout or unparseable response leaves
`last_connect` unchanged, but a parsed response missing only the `open_vpn`
field (with configuration application not raising) sets `last_connect` to
the current time before the `KeyError` is raised and caught. -/
theorem claim_C1_amended (f : String → Value → Bool) (now : Int)
    (s : CloudSession) :
    get_last_connect (should_open_vpn f now FetchResult.netError s).session
      = s.last_connect
  ∧ get_last_connect (should_open_vpn f now FetchResult.badJson s).session
      = s.last_connect
  ∧ ∀ data : RespData, data.open_vpn = none →
      Option.elim data.configuration false (fun es => (applySettings f es).2) = false →
      get_last_connect (should_open_vpn f now (FetchResult.ok data) s).session = now := by
  refine ⟨rfl, rfl, ?_⟩
  intro data hov hcfg
  obtain ⟨st, cfgo, ovo⟩ := data
  simp only at hov hcfg
  subst hov
  cases cfgo with
  | none => cases st <;> simp [should_open_vpn, get_last_connect]
  | some es =>
    simp only [Option.elim] at hcfg
    cases st <;> simp [should_open_vpn, get_last_connect, hcfg]

/-- C1 (witness): at concrete inputs, a network error leaves `last_connect`
at 5, while a parsed response missing `open_vpn` sets it to 100. -/
theorem claim_C1_witness :
    get_last_connect (should_open_vpn noFail 100 FetchResult.netError ⟨30, 5⟩).session = 5
  ∧ get_last_connect
      (should_open_vpn noFail 100 (FetchResult.ok ⟨some 45, none, none⟩) ⟨30, 5⟩).session = 100 :=
  ⟨(claim_C1_amended noFail 100 ⟨30, 5⟩).1,
   (claim_C1_amended noFail 100 ⟨30, 5⟩).2.2 ⟨some 45, none, none⟩ rfl rfl⟩

/-- C2 (counterexample): after a successful call that set `sleep_time` to 45,
a subsequent network-error call still returns `true` but the reported sleep
time stays 45, not 30 — the except path never resets `sleep_time`. -/
theorem claim_C2_counterexample :
    (should_open_vpn noFail 100 FetchResult.netError
      (should_open_vpn noFail 50 (FetchResult.ok ⟨some 45, none, some false⟩) ⟨30, 0⟩).session).decision
      = true
  ∧ get_sleep_time (should_open_vpn noFail 100 FetchResult.netError
      (should_open_vpn noFail 50 (FetchResult.ok ⟨some 45, none, some false⟩) ⟨30, 0⟩).session).session
      = 45
  ∧ (45 : Int) ≠ 30 := by decide

/-- C2 (amended): every failing call returns `open_vpn = true`, but the
sleep time is not reset to 30: a network error, timeout or parse failure
leaves it at its previous value, and a response missing only `open_vpn`
sets it from the response's `sleep_time` field (default 30). -/
theorem claim_C2_amended (f : String → Value → Bool) (now : Int)
    (s : CloudSession) :
    (should_open_vpn f now FetchResult.netError s).decision = true
  ∧ get_sleep_time (should_open_vpn f now FetchResult.netError s).session
      = s.sleep_time
  ∧ (should_open_vpn f now FetchResult.badJson s).decision = true
  ∧ get_sleep_time (should_open_vpn f now FetchResult.badJson s).session
      = s.sleep_time
  ∧ ∀ data : RespData, data.open_vpn = none →
      (should_open_vpn f now (FetchResult.ok data) s).decision = true
      ∧ get_sleep_time (should_open_vpn f now (FetchResult.ok data) s).session
          = Option.getD data.sleep_time DEFAULT_SLEEP_TIME := by
  refine ⟨rfl, rfl, rfl, rfl, ?_⟩
  intro data hov
  obtain ⟨st, cfgo, ovo⟩ := data
  simp only at hov
  subst hov
  cases cfgo with
  | none => cases st <;> simp [should_open_vpn, get_sleep_time]
  | some es =>
    cases h : (applySettings f es).2 <;>
      cases st <;> simp [should_open_vpn, get_sleep_time, h]

/-- C2 (witness): at concrete inputs, a network error on a fresh session
still reports 30, and a response with `sleep_time` 45 but no `open_vpn`
returns `true` with sleep time 45. -/
theorem claim_C2_witness :
    (should_open_vpn noFail 100 FetchResult.netError ⟨30, 0⟩).decision = true
  ∧ get_sleep_time (should_open_vpn noFail 100 FetchResult.netError ⟨30, 0⟩).session = 30
  ∧ (should_open_vpn noFail 100 (FetchResult.ok ⟨some 45, none, none⟩) ⟨30, 0⟩).decision = true :=
  ⟨(claim_C2_amended noFail 100 ⟨30, 0⟩).1,
   (claim_C2_amended noFail 100 ⟨30, 0⟩).2.1,
   ((claim_C2_amended noFail 100 ⟨30, 0⟩).2.2.2.2 ⟨some 45, none, none⟩ rfl).1⟩

/-- C4 (counterexample): a due collector with period 60 and `last_collect` 0
whose operation raises at time 100 returns Absent, but `last_collect` has
changed to 100 — the source updates it before invoking the operation. -/
theorem claim_C4_counterexample :
    (DataCollector.collect ⟨60, 0⟩ 100 OpOutcome.raises).2 = none
  ∧ (DataCollector.collect ⟨60, 0⟩ 100 OpOutcome.raises).1.last_collect = 100
  ∧ (DataCollector.collect ⟨60, 0⟩ 100 OpOutcome.raises).1.last_collect ≠ 0 := by
  decide

/-- C4 (amended): for a due collector with nonzero period whose operation
raises, `collect` catches the exception and returns Absent, but
`last_collect` is updated to the current time before the operation is
invoked, so a failing run does delay the next window. -/
theorem claim_C4_amended (c : DataCollector) (now : Int)
    (h0 : c.period ≠ 0) (hdue : c.should_collect now = true) :
    (c.collect now OpOutcome.raises).2 = none
  ∧ (c.collect now OpOutcome.raises).1.last_collect = now := by
  simp [DataCollector.collect, hdue, h0]

/-- C4 (witness): concrete instance of the amended claim with period 60,
`last_collect` 0 and the operation raising at time 100. -/
theorem claim_C4_witness :
    (DataCollector.collect ⟨60, 7⟩ 100 OpOutcome.raises).2 = none
  ∧ (DataCollector.collect ⟨60, 7⟩ 100 OpOutcome.raises).1.last_collect = 100 :=
  claim_C4_amended ⟨60, 7⟩ 100 (by decide) (by decide)

/-- C5 (counterexample): a response whose configuration holds two entries
where applying the first (key "a") raises: no entry is applied — in
particular the second entry ("b") never receives its `set_setting` call,
because the exception aborts the iteration loop. -/
theorem claim_C5_counterexample :
    (should_open_vpn failOnA 100
      (FetchResult.ok ⟨none, some [("a", Value.vInt 1), ("b", Value.vInt 2)], some false⟩)
      ⟨30, 0⟩).applied = [] := by decide

/-- C5 (amended): the entries applied are exactly the longest prefix of the
configuration on which `set_setting` succeeds — a failure stops the
remaining entries — and when any entry fails the call takes the except
path and returns `true` without aborting the tick. -/
theorem claim_C5_amended (f : String → Value → Bool) (now : Int)
    (s : CloudSession) (st : Option Int) (ov : Option Bool)
    (entries : List (String × Value)) :
    (should_open_vpn f now (FetchResult.ok ⟨st, some entries, ov⟩) s).applied
      = List.takeWhile (fun p => !f p.1 p.2) entries
  ∧ (List.any entries (fun p => f p.1 p.2) = true →
      (should_open_vpn f now (FetchResult.ok ⟨st, some entries, ov⟩) s).decision = true) := by
  constructor
  · cases h : List.any entries (fun p => f p.1 p.2) <;>
      cases st <;> cases ov <;>
        simp [should_open_vpn, applySettings_eq, h]
  · intro h
    cases st <;> simp [should_open_vpn, applySettings_eq, h]

/-- C5 (witness): with a succeeding oracle a single entry is applied whole,
and with an oracle failing on "a" the call still returns `true`. -/
theorem claim_C5_witness :
    (should_open_vpn noFail 7
      (FetchResult.ok ⟨none, some [("x", Value.vInt 1)], some true⟩) ⟨30, 0⟩).applied
      = List.takeWhile (fun p => !noFail p.1 p.2) [("x", Value.vInt 1)]
  ∧ (should_open_vpn failOnA 7
      (FetchResult.ok ⟨none, some [("a", Value.vInt 1)], some false⟩) ⟨30, 0⟩).decision = true :=
  ⟨(claim_C5_amended noFail 7 ⟨30, 0⟩ none (some true) [("x", Value.vInt 1)]).1,
   (claim_C5_amended failOnA 7 ⟨30, 0⟩ none (some false) [("a", Value.vInt 1)]).2 (by decide)⟩

/-- C6: `set_vpn` issues at most the single necessary OS command: desired
open with the tunnel inactive gives exactly one start and no stop, desired
closed with the tunnel active gives exactly one stop and no start, and when
actual already equals desired neither primitive is called. -/
theorem claim_C6 :
    (∀ d a : Bool, (set_vpn d a).start_calls + (set_vpn d a).stop_calls ≤ 1)
  ∧ set_vpn true false = ⟨1, 0⟩
  ∧ set_vpn false true = ⟨0, 1⟩
  ∧ (∀ b : Bool, set_vpn b b = ⟨0, 0⟩) := by decide

/-- C7: for counters in [0, 65535] the diff is `current - previous` when
non-negative and `65536 - previous + current` otherwise — equivalently the
difference modulo 65536 — with the spec's concrete values, and the first
pulse-counter sample yields a delta of 0 for every counter. -/
theorem claim_C7 (current previous : Int)
    (h1 : 0 ≤ current) (h2 : current ≤ 65535)
    (h3 : 0 ≤ previous) (h4 : previous ≤ 65535) :
    (counter_diff current previous =
      if current - previous ≥ 0 then current - previous
      else 65536 - previous + current)
  ∧ counter_diff current previous = (current - previous) % 65536
  ∧ counter_diff 5 65530 = 11
  ∧ counter_diff 100 40 = 60
  ∧ counter_diff 0 0 = 0
  ∧ ∀ counters : List Int,
      (get_pulse_counter_diff none counters).2 = List.replicate 24 0 := by
  refine ⟨rfl, ?_, by decide, by decide, by decide, fun counters => rfl⟩
  have hd : counter_diff current previous =
      if current - previous ≥ 0 then current - previous
      else 65536 - previous + current := rfl
  rw [hd]
  split <;> omega

/-- C7 (witness): the wrapping case at `current = 5`, `previous = 65530`. -/
theorem claim_C7_witness :
    counter_diff 5 65530 = (5 - 65530) % 65536 ∧ counter_diff 5 65530 = 11 :=
  ⟨(claim_C7 5 65530 (by decide) (by decide) (by decide) (by decide)).2.1,
   (claim_C7 5 65530 (by decide) (by decide) (by decide) (by decide)).2.2.1⟩

/-- C3: in an enabled tick the reboot primitive fires exactly when the
iteration counter exceeds 20 and the tick instant minus the session's
`last_connect` after the cloud call exceeds `REBOOT_TIMEOUT` = 900 seconds. -/
theorem claim_C3 (s : LoopState) (env : TickEnv)
    (h : env.cloud_enabled ≠ Value.vBool false) :
    (tick s env).2.rebooted = true ↔
      (s.iterations > 20 ∧
       env.now - get_last_connect
         (should_open_vpn env.setFails env.now env.fetch s.session).session
         > REBOOT_TIMEOUT) := by
  simp only [tick, if_neg h, Bool.and_eq_true, decide_eq_true_eq, REBOOT_TIMEOUT]
  constructor <;> rintro ⟨a, b⟩ <;> exact ⟨a, by omega⟩

/-- C3 (witness): with iteration counter 25 and `last_connect` 1000 seconds
stale the reboot fires; with counter 5 and the same staleness it does not. -/
theorem claim_C3_witness :
    (tick ⟨25, ⟨30, 0⟩, []⟩
      ⟨Value.vBool true, 1000, false, [], FetchResult.netError, noFail⟩).2.rebooted = true
  ∧ (tick ⟨5, ⟨30, 0⟩, []⟩
      ⟨Value.vBool true, 1000, false, [], FetchResult.netError, noFail⟩).2.rebooted = false := by
  constructor
  · exact (claim_C3 ⟨25, ⟨30, 0⟩, []⟩
      ⟨Value.vBool true, 1000, false, [], FetchResult.netError, noFail⟩ (by decide)).mpr
      (by decide)
  · rcases Bool.eq_false_or_eq_true
      (tick ⟨5, ⟨30, 0⟩, []⟩
        ⟨Value.vBool true, 1000, false, [], FetchResult.netError, noFail⟩).2.rebooted with hb | hb
    · exact absurd ((claim_C3 ⟨5, ⟨30, 0⟩, []⟩
        ⟨Value.vBool true, 1000, false, [], FetchResult.netError, noFail⟩ (by decide)).mp hb).1
        (by decide)
    · exact hb

/-- C8: a tick in which the configuration store returns the boolean `false`
for `cloud_enabled` leaves the loop state untouched — no cloud call, no
telemetry collection, no iteration-counter advance — reconciles the tunnel
toward closed and sleeps a fixed 30 seconds. -/
theorem claim_C8 (s : LoopState) (env : TickEnv)
    (h : env.cloud_enabled = Value.vBool false) :
    tick s env
      = (s, { cloud_called := false, collect_ran := false, payload := [],
              rebooted := false, vpn_calls := set_vpn false env.vpn_is_open,
              sleep := 30 }) := by
  simp [tick, h]

/-- C8 (witness): a concrete disabled tick with the tunnel currently open:
the state is unchanged and the only OS command is the single stop. -/
theorem claim_C8_witness :
    tick ⟨3, ⟨30, 0⟩, []⟩
      ⟨Value.vBool false, 500, true, [], FetchResult.netError, noFail⟩
      = (⟨3, ⟨30, 0⟩, []⟩, ⟨false, false, [], false, set_vpn false true, 30⟩) :=
  claim_C8 ⟨3, ⟨30, 0⟩, []⟩
    ⟨Value.vBool false, 500, true, [], FetchResult.netError, noFail⟩ rfl

/-- C9 (counterexample): an enabled tick whose response carries
`sleep_time = 0` sleeps for exactly 0 seconds — the source applies no
minimum clamp to `cloud.get_sleep_time()`. -/
theorem claim_C9_counterexample :
    (tick ⟨0, ⟨30, 0⟩, []⟩
      ⟨Value.vBool true, 100, false, [],
       FetchResult.ok ⟨some 0, none, some false⟩, noFail⟩).2.sleep = 0 := by decide

/-- C9 (amended): in every enabled tick the end-of-tick sleep duration is
exactly the session's sleep time after the cloud call, with no clamping —
it is 0 whenever the control plane returned `sleep_time` 0. -/
theorem claim_C9_amended (s : LoopState) (env : TickEnv)
    (h : env.cloud_enabled ≠ Value.vBool false) :
    (tick s env).2.sleep
      = get_sleep_time
          (should_open_vpn env.setFails env.now env.fetch s.session).session := by
  simp [tick, if_neg h]

/-- C9 (witness): a concrete enabled tick whose response carries
`sleep_time = 12` sleeps exactly 12 seconds. -/
theorem claim_C9_witness :
    (tick ⟨0, ⟨30, 0⟩, []⟩
      ⟨Value.vNone, 100, false, [],
       FetchResult.ok ⟨some 12, none, some true⟩, noFail⟩).2.sleep = 12 :=
  (claim_C9_amended ⟨0, ⟨30, 0⟩, []⟩
    ⟨Value.vNone, 100, false, [], FetchResult.ok ⟨some 12, none, some true⟩, noFail⟩
    (by decide)).trans (by decide)

/-- C10: the disabled path is taken exactly when the configuration store
returns the boolean `false` (the source tests `cloud_enabled is False`);
any other value — `None`, the integer 0, the empty string, `true` — runs
the enabled tick: telemetry is collected and the tunnel is reconciled
toward the remote decision. -/
theorem claim_C10 (s : LoopState) (env : TickEnv) :
    ((tick s env).2.cloud_called = false ↔ env.cloud_enabled = Value.vBool false)
  ∧ (env.cloud_enabled ≠ Value.vBool false →
      (tick s env).2.collect_ran = true
      ∧ (tick s env).2.vpn_calls
          = set_vpn (should_open_vpn env.setFails env.now env.fetch s.session).decision
              env.vpn_is_open) := by
  by_cases h : env.cloud_enabled = Value.vBool false
  · simp [tick, h]
  · simp [tick, h]

/-- C10 (witness): with `get_setting` returning the integer 0 the tick runs
enabled: telemetry collection happens. -/
theorem claim_C10_witness :
    (tick ⟨0, ⟨30, 0⟩, []⟩
      ⟨Value.vInt 0, 100, false, [], FetchResult.netError, noFail⟩).2.collect_ran = true :=
  ((claim_C10 ⟨0, ⟨30, 0⟩, []⟩
    ⟨Value.vInt 0, 100, false, [], FetchResult.netError, noFail⟩).2 (by decide)).1

end VpnService
